import Mathlib

/-!
Shallow embedding of the core logic of `src/main.py` (OWON XDM1041 multimeter
GUI).  The verifiable core consists of:

* `formater_mesure` and `extraire_float` — the two pure formatting functions;
* the success/failure paths of `MultimetreApp.update_valeurs` — the poll-cycle
  state transition over the app state (`historique`, `dernier_mode`,
  `dernier_plage`, `dernier_unite`, `start_time`) and the three display labels;
* `MultimetreApp.closeEvent` — the shutdown sequence.

Python `float(...)` parsing and `f"{v:.3f}"` formatting are modelled over ℚ by
the idealized, executable functions `pyFloat?` and `pyFormat3` (sign, digits,
optional decimal point, optional exponent; round half to even at 3 decimals).
Time values are modelled as ℚ.
-/

/-- Python `str.startswith(pre)`. -/
def pyStartswith (s pre : String) : Bool :=
  pre.data.isPrefixOf s.data

/-- Split a leading run of decimal digits off a character list. -/
def takeDigits : List Char → List Char × List Char
  | [] => ([], [])
  | c :: cs =>
    if c.isDigit then
      let p := takeDigits cs
      (c :: p.1, p.2)
    else ([], c :: cs)

/-- Numeric value of a digit string. -/
def digitsVal (l : List Char) : Nat :=
  l.foldl (fun a c => 10 * a + (c.toNat - 48)) 0

/-- Parse the part after `e`/`E` in a float literal: optional sign, then a
nonempty run of digits, nothing after. -/
def parseExpPart (l : List Char) : Option Int :=
  match l with
  | [] => none
  | c :: cs =>
    let sgn : Int := if c = '-' then -1 else 1
    let ds := if c = '-' ∨ c = '+' then cs else c :: cs
    let p := takeDigits ds
    if p.1 ≠ [] ∧ p.2 = [] then some (sgn * (digitsVal p.1 : Int)) else none

/-- Subtraction on ℚ written with `mkRat` so that it evaluates by kernel
reduction; `qSub_eq` proves it agrees with `Sub.sub`. -/
def qSub (a b : ℚ) : ℚ :=
  mkRat (a.num * b.den - b.num * a.den) (a.den * b.den)

/-- Multiplication on ℚ written with `mkRat`; `qMul_eq` proves it agrees with
`Mul.mul`. -/
def qMul (a b : ℚ) : ℚ :=
  mkRat (a.num * b.num) (a.den * b.den)

/-- `q * 10 ^ e` for an integer exponent, written with `mkRat`;
`qMulPow10_eq` proves it agrees with the field operations. -/
def qMulPow10 (q : ℚ) (e : Int) : ℚ :=
  match e with
  | .ofNat n => mkRat (q.num * (10 ^ n : Nat)) q.den
  | .negSucc n => mkRat q.num (q.den * 10 ^ (n + 1))

/-- Floor of a rational; `qFloor_eq` proves it agrees with `Int.floor`. -/
def qFloor (q : ℚ) : Int := q.num / q.den

/-- Idealized model of Python `float(s)` over ℚ: optional sign, digits with an
optional decimal point (at least one digit overall), optional `e`/`E` exponent.
Returns `none` exactly when Python `float` raises `ValueError` (idealized:
`inf`/`nan`/underscores/whitespace are out of scope). -/
def pyFloat? (s : String) : Option ℚ :=
  let l := s.data
  let isNeg : Bool := match l with | '-' :: _ => true | _ => false
  let l1 := match l with | '-' :: cs => cs | '+' :: cs => cs | cs => cs
  let pInt := takeDigits l1
  let pFrac := match pInt.2 with | '.' :: cs => takeDigits cs | cs => ([], cs)
  let hasDot := match pInt.2 with | '.' :: _ => true | _ => false
  if pInt.1 = [] ∧ pFrac.1 = [] then none
  else
    let rest := if hasDot then pFrac.2 else pInt.2
    let mant : ℚ := mkRat (digitsVal (pInt.1 ++ pFrac.1)) (10 ^ pFrac.1.length)
    let signed : ℚ := if isNeg then -mant else mant
    match rest with
    | [] => some signed
    | 'e' :: cs => (parseExpPart cs).map (fun e => qMulPow10 signed e)
    | 'E' :: cs => (parseExpPart cs).map (fun e => qMulPow10 signed e)
    | _ => none

/-- Round to the nearest integer, ties to even (Python's rounding for `:.3f`,
idealized over ℚ). -/
def roundHalfEven (q : ℚ) : Int :=
  let f := qFloor q
  let r := qSub q (mkRat f 1)
  if r < mkRat 1 2 then f
  else if mkRat 1 2 < r then f + 1
  else if f % 2 = 0 then f else f + 1

/-- Zero-pad a fractional part to three digits. -/
def pad3 (n : Nat) : String :=
  if n < 10 then "00" ++ Nat.repr n
  else if n < 100 then "0" ++ Nat.repr n
  else Nat.repr n

/-- Idealized model of Python `f"{v:.3f}"` over ℚ. -/
def pyFormat3 (q : ℚ) : String :=
  let n := roundHalfEven (qMul q (mkRat 1000 1))
  let sgn := if q.num < 0 then "-" else ""
  let m := n.natAbs
  sgn ++ Nat.repr (m / 1000) ++ "." ++ pad3 (m % 1000)

/-- `formater_mesure` from `src/main.py` lines 47–54: overload sentinel check,
then `float` parse and 3-decimal formatting with the unit appended; on
`ValueError` the raw string is returned unchanged. -/
def formater_mesure (valeur unite : String) : String :=
  if pyStartswith valeur "1E+9" then "Surcharge"
  else
    match pyFloat? valeur with
    | some v => pyFormat3 v ++ " " ++ unite
    | none => valeur

/-- `extraire_float` from `src/main.py` lines 56–62: overload sentinel check,
then `float` parse; `none` on overload or `ValueError`. -/
def extraire_float (valeur : String) : Option ℚ :=
  if pyStartswith valeur "1E+9" then none
  else pyFloat? valeur

/-- The `unites` lookup table from `src/main.py` lines 64–74, with the default
`""` of `unites.get(mode.upper(), "")`. -/
def unitesGet (m : String) : String :=
  if m = "VOLT" then "V"
  else if m = "VOLT AC" then "V~"
  else if m = "CURR" then "A"
  else if m = "CURR AC" then "A~"
  else if m = "RES" then "Ω"
  else if m = "CAP" then "F"
  else if m = "FREQ" then "Hz"
  else if m = "DIOD" then "V"
  else if m = "CONT" then "Ω"
  else ""

/-- The `modes_fran` lookup table from `src/main.py` lines 76–86, with the
default of `modes_fran.get(mode.upper(), mode)` passed as `dflt`. -/
def modesFranGet (m dflt : String) : String :=
  if m = "VOLT" then "Tension continue"
  else if m = "VOLT AC" then "Tension alternative"
  else if m = "CURR" then "Courant continu"
  else if m = "CURR AC" then "Courant alternatif"
  else if m = "RES" then "Résistance"
  else if m = "CAP" then "Capacité"
  else if m = "FREQ" then "Fréquence"
  else if m = "DIOD" then "Diode"
  else if m = "CONT" then "Continuité"
  else dflt

/-- Python `s.strip(chr)` for a single character: remove every leading and
trailing occurrence (used as `.strip(chr(34))` on the mode response). -/
def pyStripChar (s : String) (c : Char) : String :=
  ⟨((s.data.dropWhile (· = c)).reverse.dropWhile (· = c)).reverse⟩

/-- Python `str.upper()` restricted to ASCII (the mode codes are ASCII). -/
def pyUpper (s : String) : String :=
  ⟨s.data.map Char.toUpper⟩

/-- The mutable state of `MultimetreApp` touched by `update_valeurs`
(`src/main.py` lines 166–170): the sample window `historique` (pairs of
elapsed time and value), the stored `DeviceState` (`dernier_mode`,
`dernier_plage`, `dernier_unite`) and the elapsed-time origin `start_time`. -/
structure AppState where
  historique : List (ℚ × ℚ)
  dernier_mode : String
  dernier_plage : String
  dernier_unite : String
  start_time : ℚ
deriving DecidableEq

/-- The three display labels written by `update_valeurs`
(`self.labels["MODE"|"PLAGE"|"MESURE"]`). -/
structure Labels where
  modeLabel : String
  plageLabel : String
  mesureLabel : String
deriving DecidableEq

/-- The mode/range-change branch of `update_valeurs` (`src/main.py` lines
188–195): when the stripped mode or the range differs from the stored
`DeviceState`, clear the window, reset the elapsed-time origin to `now` and
store the new mode, range and unit; otherwise leave the state untouched. -/
def applyReset (now : ℚ) (mode plage unite : String) (s : AppState) : AppState :=
  if mode ≠ s.dernier_mode ∨ plage ≠ s.dernier_plage then
    { historique := []
      dernier_mode := mode
      dernier_plage := plage
      dernier_unite := unite
      start_time := now }
  else s

/-- The eviction loop of `update_valeurs` (`src/main.py` lines 205–206):
`while self.historique and self.historique[0][0] < temps - 60:
self.historique.popleft()`. -/
def evictOld (temps : ℚ) (h : List (ℚ × ℚ)) : List (ℚ × ℚ) :=
  h.dropWhile (fun p => decide (p.1 < qSub temps (mkRat 60 1)))

/-- One tick of `MultimetreApp.update_valeurs` (`src/main.py` lines 178–221).
`resp` is the outcome of the three transport queries (`FUNC1?`, `RANGE?`,
`MEAS1?`), which all precede any state mutation; `Except.error e` models an
exception with text `e` raised by the transport, handled by the
`except` branch (lines 218–221).  `now` models `time.time()` and `graph`
models `self.afficher_graphique`.  Returns the new state and the three label
texts. -/
def update_valeurs (now : ℚ) (graph : Bool)
    (resp : Except String (String × String × String)) (s : AppState) :
    AppState × Labels :=
  match resp with
  | .error e => (s, ⟨"Erreur", "--", e⟩)
  | .ok (rmode, plage, val1) =>
    let mode := pyStripChar rmode '"'
    let mode_str := modesFranGet (pyUpper mode) mode
    let unite := unitesGet (pyUpper mode)
    let val_formatee := formater_mesure val1 unite
    let s1 := applyReset now mode plage unite s
    let labels : Labels := ⟨mode_str, plage, val_formatee⟩
    match extraire_float val1 with
    | some v =>
      if graph then
        let temps := qSub now s1.start_time
        let h := evictOld temps (s1.historique ++ [(temps, v)])
        ({ s1 with historique := h }, labels)
      else (s1, labels)
    | none => (s1, labels)

/-- Outcome of `MultimetreApp.closeEvent` (`src/main.py` lines 223–230). -/
structure CloseOutcome where
  locSent : Bool
  closeCalled : Bool
  raises : Bool
  accepted : Bool
deriving DecidableEq

/-- `MultimetreApp.closeEvent` (`src/main.py` lines 223–230): inside a single
`try` block it writes `SYST:LOC` and then calls `self.ser.close()`; a bare
`except: pass` swallows any exception; `event.accept()` always runs.
`writeRaises` / `closeRaises` model whether the corresponding serial call
raises.  If the write raises, control jumps to `except` and `close` is never
called. -/
def closeEvent (writeRaises closeRaises : Bool) : CloseOutcome :=
  if writeRaises then
    { locSent := false, closeCalled := false, raises := false, accepted := true }
  else if closeRaises then
    { locSent := true, closeCalled := true, raises := false, accepted := true }
  else
    { locSent := true, closeCalled := true, raises := false, accepted := true }

/-- The state of a successful poll cycle after the mode/range-change check:
`applyReset` applied to the stripped mode and its looked-up unit (the value of
`self` state just before line 197 of `src/main.py`). -/
def resetStep (now : ℚ) (rmode plage : String) (s : AppState) : AppState :=
  applyReset now (pyStripChar rmode '"') plage
    (unitesGet (pyUpper (pyStripChar rmode '"'))) s

/-- `qSub` agrees with subtraction on ℚ. -/
theorem qSub_eq (a b : ℚ) : qSub a b = a - b := by
  unfold qSub
  rw [Rat.mkRat_eq_div]
  have ha : ((a.den : ℚ)) ≠ 0 := by exact_mod_cast a.den_nz
  have hb : ((b.den : ℚ)) ≠ 0 := by exact_mod_cast b.den_nz
  push_cast
  conv_rhs => rw [← Rat.num_div_den a, ← Rat.num_div_den b]
  rw [div_sub_div _ _ ha hb]
  ring_nf

/-- `qMul` agrees with multiplication on ℚ. -/
theorem qMul_eq (a b : ℚ) : qMul a b = a * b := by
  unfold qMul
  rw [Rat.mkRat_eq_div]
  have ha : ((a.den : ℚ)) ≠ 0 := by exact_mod_cast a.den_nz
  have hb : ((b.den : ℚ)) ≠ 0 := by exact_mod_cast b.den_nz
  push_cast
  conv_rhs => rw [← Rat.num_div_den a, ← Rat.num_div_den b]
  rw [div_mul_div_comm]

/-- `qFloor` agrees with `Int.floor` on ℚ. -/
theorem qFloor_eq (q : ℚ) : qFloor q = ⌊q⌋ := Rat.floor_def.symm

/-- `qMulPow10` agrees with multiplication by an integer power of 10. -/
theorem qMulPow10_eq (q : ℚ) (e : Int) : qMulPow10 q e = q * (10 : ℚ) ^ e := by
  have hq : ((q.den : ℚ)) ≠ 0 := by exact_mod_cast q.den_nz
  match e with
  | .ofNat n =>
    show mkRat (q.num * (10 ^ n : Nat)) q.den = _
    rw [Rat.mkRat_eq_div]
    push_cast
    rw [show ((Int.ofNat n : Int)) = (n : Int) from rfl, zpow_natCast]
    conv_rhs => rw [← Rat.num_div_den q]
    field_simp
  | .negSucc n =>
    show mkRat q.num (q.den * 10 ^ (n + 1)) = _
    rw [Rat.mkRat_eq_div]
    push_cast
    rw [show (Int.negSucc n) = -((n+1 : Nat) : Int) from rfl, zpow_neg, zpow_natCast]
    conv_rhs => rw [← Rat.num_div_den q]
    field_simp


/-- On a list sorted by `R`, `dropWhile p` with a predicate downward closed
along `R` removes exactly the elements satisfying `p`. -/
theorem dropWhile_eq_filter_not_of_pairwise {α : Type} {R : α → α → Prop} {p : α → Bool}
    (hp : ∀ a b, R a b → p b = true → p a = true) :
    ∀ l : List α, l.Pairwise R → l.dropWhile p = l.filter (fun a => !p a)
  | [], _ => rfl
  | a :: t, hpair => by
    rcases List.pairwise_cons.mp hpair with ⟨ha, ht⟩
    cases hpa : p a with
    | true =>
      rw [List.dropWhile_cons_of_pos hpa, dropWhile_eq_filter_not_of_pairwise hp t ht]
      simp [List.filter_cons, hpa]
    | false =>
      rw [List.dropWhile_cons_of_neg (by simp [hpa])]
      have hkeep : t.filter (fun b => !p b) = t :=
        List.filter_eq_self.mpr (fun b hb => by
          cases hpb : p b with
          | true => exact absurd (hp a b (ha b hb) hpb) (by simp [hpa])
          | false => simp)
      simp [List.filter_cons, hpa, hkeep]

/-- C4: for every string beginning with the overload sentinel "1E+9" and every
unit string, `formater_mesure` returns the fixed label "Surcharge"
(independent of the unit) and `extraire_float` returns `none`. -/
theorem C4_overload_surcharge (s u : String)
    (h : pyStartswith s "1E+9" = true) :
    formater_mesure s u = "Surcharge" ∧ extraire_float s = none := by
  constructor
  · simp [formater_mesure, h]
  · simp [extraire_float, h]

theorem C4_overload_surcharge_witness :
    pyStartswith "1E+9" "1E+9" = true ∧
    (formater_mesure "1E+9" "V" = "Surcharge" ∧ extraire_float "1E+9" = none) :=
  ⟨by decide, C4_overload_surcharge "1E+9" "V" (by decide)⟩

/-- C9: for every string that does not begin with "1E+9" and does not parse as
a float, `formater_mesure` returns the input unchanged for every unit. -/
theorem C9_parse_failure_passthrough (s u : String)
    (h1 : pyStartswith s "1E+9" = false) (h2 : pyFloat? s = none) :
    formater_mesure s u = s := by
  simp [formater_mesure, h1, h2]

theorem C9_parse_failure_passthrough_witness :
    pyStartswith "abc" "1E+9" = false ∧ pyFloat? "abc" = none ∧
    formater_mesure "abc" "V" = "abc" :=
  ⟨by decide, by decide, C9_parse_failure_passthrough "abc" "V" (by decide) (by decide)⟩

/-- C5 (counterexample): "1E+90" is a valid float in string form (it parses to
10^90), yet `extraire_float` returns `none` and `formater_mesure` returns
"Surcharge" rather than the rounded value with the unit. -/
theorem C5_counterexample :
    pyFloat? "1E+90" = some (mkRat ((10 ^ 90 : Nat) : Int) 1) ∧
    extraire_float "1E+90" = none ∧
    formater_mesure "1E+90" "V" = "Surcharge" := by decide

/-- C5 (amended): for every valid float string that does not begin with the
overload sentinel "1E+9", `formater_mesure` returns the value rounded to
3 decimal places concatenated with the unit, and `extraire_float` returns
exactly the parsed value. -/
theorem C5_valid_float_format (v u : String) (q : ℚ)
    (h1 : pyStartswith v "1E+9" = false) (h2 : pyFloat? v = some q) :
    formater_mesure v u = pyFormat3 q ++ " " ++ u ∧ extraire_float v = some q := by
  simp [formater_mesure, extraire_float, h1, h2]

theorem C5_valid_float_format_witness :
    pyStartswith "1.234" "1E+9" = false ∧ pyFloat? "1.234" = some (mkRat 617 500) ∧
    (formater_mesure "1.234" "V" = pyFormat3 (mkRat 617 500) ++ " " ++ "V" ∧
     extraire_float "1.234" = some (mkRat 617 500)) :=
  ⟨by decide, by decide, C5_valid_float_format "1.234" "V" (mkRat 617 500) (by decide) (by decide)⟩

/-- C10: `extraire_float` returns `none` exactly when the string starts with
the four-character prefix "1E+9" or does not parse as a float; in particular
"1E+90" and "1E+99" (valid floats) are treated as overload and yield `none`,
while "-1E+9" is not treated as overload and yields -10^9. -/
theorem C10_none_iff :
    (∀ s, extraire_float s = none ↔
      (pyStartswith s "1E+9" = true ∨ pyFloat? s = none)) ∧
    extraire_float "1E+90" = none ∧ extraire_float "1E+99" = none ∧
    pyFloat? "1E+90" = some (mkRat ((10 ^ 90 : Nat) : Int) 1) ∧
    pyFloat? "1E+99" = some (mkRat ((10 ^ 99 : Nat) : Int) 1) ∧
    extraire_float "-1E+9" = some (mkRat (-1000000000) 1) := by
  refine ⟨fun s => ?_, by decide, by decide, by decide, by decide, by decide⟩
  unfold extraire_float
  cases h : pyStartswith s "1E+9" <;> simp [h]

/-- C2 (counterexample): when the `SYST:LOC` write raises, `closeEvent`
never reaches `self.ser.close()` — the port-close action is skipped. -/
theorem C2_counterexample :
    (closeEvent true false).closeCalled = false ∧
    (closeEvent true false).raises = false := by decide

/-- C2 (amended): `closeEvent` never propagates an exception and always
accepts the event; the `SYST:LOC` write is attempted and, exactly when it does
not raise, the port-close call is reached — if the write raises, the close is
skipped by the shared `except` handler. -/
theorem C2_close_sequence (writeRaises closeRaises : Bool) :
    (closeEvent writeRaises closeRaises).raises = false ∧
    (closeEvent writeRaises closeRaises).accepted = true ∧
    (closeEvent writeRaises closeRaises).locSent = !writeRaises ∧
    (closeEvent writeRaises closeRaises).closeCalled = !writeRaises := by
  cases writeRaises <;> cases closeRaises <;> simp [closeEvent]

/-- C3 (counterexample): on a transport error the mode field (not the
measurement field) shows "Erreur", the range field shows the placeholder "--",
and the measurement field shows only the exception text. -/
theorem C3_counterexample :
    ((update_valeurs (mkRat 0 1) true (Except.error "boom")
        ⟨[], "", "", "", mkRat 0 1⟩).2).modeLabel = "Erreur" ∧
    ((update_valeurs (mkRat 0 1) true (Except.error "boom")
        ⟨[], "", "", "", mkRat 0 1⟩).2).plageLabel = "--" ∧
    ((update_valeurs (mkRat 0 1) true (Except.error "boom")
        ⟨[], "", "", "", mkRat 0 1⟩).2).mesureLabel = "boom" ∧
    pyStartswith "boom" "Erreur" = false ∧
    "Erreur" ≠ "--" ∧ "Erreur" ≠ "-" := by decide

/-- C3 (amended): on any cycle whose transport queries raise, the handler sets
the mode field to "Erreur", the range field to the placeholder "--" and the
measurement field to the exception text, and returns with the state
(window history and DeviceState) completely unchanged, so the next tick runs
from the same state. -/
theorem C3_error_cycle (now : ℚ) (graph : Bool) (e : String) (s : AppState) :
    update_valeurs now graph (Except.error e) s =
      (s, ⟨"Erreur", "--", e⟩) := rfl

/-- C1 (counterexample): with the graph display disabled, a cycle whose
extraction succeeds appends nothing to the window. -/
theorem C1_counterexample :
    extraire_float "1.0" = some (mkRat 1 1) ∧
    ((update_valeurs (mkRat 5 1) false
        (Except.ok ("VOLT", "AUTO", "1.0"))
        ⟨[], "VOLT", "AUTO", "V", mkRat 0 1⟩).1).historique = [] := by decide

/-- C1 (amended): in every poll cycle with the graph display enabled in which
extraction succeeds, the pair (elapsed time, value) is appended to the window
and entries older than 60 seconds are then evicted from the front. -/
theorem C1_append_then_evict (now : ℚ) (rmode plage val1 : String) (v : ℚ)
    (s : AppState) (h : extraire_float val1 = some v) :
    ((update_valeurs now true (Except.ok (rmode, plage, val1)) s).1).historique =
      evictOld (qSub now (resetStep now rmode plage s).start_time)
        ((resetStep now rmode plage s).historique ++
          [(qSub now (resetStep now rmode plage s).start_time, v)]) := by
  simp [update_valeurs, resetStep, h]

theorem C1_append_then_evict_witness :
    extraire_float "1.0" = some (mkRat 1 1) ∧
    ((update_valeurs (mkRat 5 1) true (Except.ok ("VOLT", "AUTO", "1.0"))
        ⟨[], "VOLT", "AUTO", "V", mkRat 0 1⟩).1).historique =
      evictOld (qSub (mkRat 5 1) (resetStep (mkRat 5 1) "VOLT" "AUTO"
          ⟨[], "VOLT", "AUTO", "V", mkRat 0 1⟩).start_time)
        ((resetStep (mkRat 5 1) "VOLT" "AUTO"
            ⟨[], "VOLT", "AUTO", "V", mkRat 0 1⟩).historique ++
          [(qSub (mkRat 5 1) (resetStep (mkRat 5 1) "VOLT" "AUTO"
              ⟨[], "VOLT", "AUTO", "V", mkRat 0 1⟩).start_time, mkRat 1 1)]) :=
  ⟨by decide, C1_append_then_evict (mkRat 5 1) "VOLT" "AUTO" "1.0" (mkRat 1 1) _ (by decide)⟩

/-- `mkRat 60 1` denotes the rational 60. -/
theorem mkRat_sixty : (mkRat 60 1 : ℚ) = 60 := by
  norm_num [Rat.mkRat_eq_div]

/-- No entry is evicted by a threshold 60 seconds below itself. -/
theorem lt_qSub_sixty_self_false (t : ℚ) :
    (decide (t < qSub t (mkRat 60 1))) = false := by
  simp only [decide_eq_false_iff_not, not_lt, qSub_eq, mkRat_sixty]
  linarith

/-- Appending the newest sample and evicting preserves the window invariant:
the result is still time-sorted, ends with the new sample, only contains
entries at most 60 seconds older than the new sample, and is a suffix of the
appended window (entries are only removed from the front, oldest first). -/
theorem evictOld_append_invariant (temps v : ℚ) (h : List (ℚ × ℚ))
    (hsort : h.Pairwise (fun a b => a.1 ≤ b.1))
    (hle : ∀ p ∈ h, p.1 ≤ temps) :
    (evictOld temps (h ++ [(temps, v)])).Pairwise (fun a b => a.1 ≤ b.1) ∧
    (evictOld temps (h ++ [(temps, v)])).getLast? = some (temps, v) ∧
    (∀ p ∈ evictOld temps (h ++ [(temps, v)]), qSub temps (mkRat 60 1) ≤ p.1) ∧
    evictOld temps (h ++ [(temps, v)]) <:+ (h ++ [(temps, v)]) := by
  have hsortall : (h ++ [(temps, v)]).Pairwise (fun a b => a.1 ≤ b.1) :=
    List.pairwise_append.mpr ⟨hsort, by simp, by
      intro a ha b hb
      simp only [List.mem_singleton] at hb
      subst hb
      exact hle a ha⟩
  have hfilter : evictOld temps (h ++ [(temps, v)]) =
      (h ++ [(temps, v)]).filter
        (fun p => !decide (p.1 < qSub temps (mkRat 60 1))) :=
    dropWhile_eq_filter_not_of_pairwise (fun a b hab hb => by
      simp only [decide_eq_true_eq] at hb ⊢
      exact lt_of_le_of_lt hab hb) _ hsortall
  refine ⟨?_, ?_, ?_, ?_⟩
  · rw [hfilter]
    exact hsortall.sublist (List.filter_sublist _)
  · rw [hfilter, List.filter_append]
    have hxb : (!decide ((((temps, v)) : ℚ × ℚ).1 < qSub temps (mkRat 60 1))) = true := by
      show (!decide (temps < qSub temps (mkRat 60 1))) = true
      rw [lt_qSub_sixty_self_false temps]
      rfl
    rw [List.filter_cons, hxb, if_pos rfl, List.filter_nil]
    exact List.getLast?_concat _
  · intro p hp
    rw [hfilter] at hp
    have hpred := (List.mem_filter.mp hp).2
    simp only [Bool.not_eq_true', decide_eq_false_iff_not, not_lt] at hpred
    exact hpred
  · unfold evictOld
    exact List.dropWhile_suffix _

/-- C6: eviction keeps exactly the recent entries: on elapsed times
[0, 10, 30, 61, 70] the pass after the last insertion keeps exactly
[10, 30, 61, 70]; and on every time-sorted window, eviction removes from the
front exactly the entries with elapsed time strictly below latest − 60. -/
theorem C6_eviction_exact :
    evictOld (mkRat 70 1)
        [(mkRat 0 1, mkRat 0 1), (mkRat 10 1, mkRat 0 1), (mkRat 30 1, mkRat 0 1),
          (mkRat 61 1, mkRat 0 1), (mkRat 70 1, mkRat 0 1)] =
      [(mkRat 10 1, mkRat 0 1), (mkRat 30 1, mkRat 0 1),
        (mkRat 61 1, mkRat 0 1), (mkRat 70 1, mkRat 0 1)] ∧
    ∀ (t : ℚ) (l : List (ℚ × ℚ)), l.Pairwise (fun a b => a.1 ≤ b.1) →
      evictOld t l = l.filter (fun p => !decide (p.1 < qSub t (mkRat 60 1))) := by
  refine ⟨by decide, fun t l hl => ?_⟩
  exact dropWhile_eq_filter_not_of_pairwise (fun a b hab hb => by
    simp only [decide_eq_true_eq] at hb ⊢
    exact lt_of_le_of_lt hab hb) l hl

theorem C6_eviction_exact_witness :
    ([((mkRat 50 1 : ℚ), (mkRat 1 1 : ℚ))]).Pairwise (fun a b => a.1 ≤ b.1) ∧
    evictOld (mkRat 100 1) [(mkRat 50 1, mkRat 1 1)] =
      ([((mkRat 50 1 : ℚ), (mkRat 1 1 : ℚ))]).filter
        (fun p => !decide (p.1 < qSub (mkRat 100 1) (mkRat 60 1))) :=
  ⟨by decide, C6_eviction_exact.2 (mkRat 100 1) [(mkRat 50 1, mkRat 1 1)] (by decide)⟩

/-- A small concrete state used to instantiate the universally quantified
theorems: one sample at elapsed time 1 with value 2, stored mode "VOLT",
range "AUTO", unit "V", origin 0. -/
def sampleState : AppState :=
  ⟨[(mkRat 1 1, mkRat 2 1)], "VOLT", "AUTO", "V", mkRat 0 1⟩

/-- C7: after every completed successful poll cycle (graph enabled, extraction
successful), assuming the previous window was time-sorted with all entries in
the past, the resulting window is time-sorted (insertion order = time order),
ends with the newest sample — the latest entry — every entry satisfies
elapsed_time ≥ latest − 60, and the window is a suffix of the appended
sequence: entries are only evicted from the front, oldest first (FIFO). -/
theorem C7_window_invariant (now : ℚ) (rmode plage val1 : String) (v : ℚ)
    (s : AppState) (hv : extraire_float val1 = some v)
    (hsort : s.historique.Pairwise (fun a b => a.1 ≤ b.1))
    (hle : ∀ p ∈ s.historique, p.1 ≤ qSub now s.start_time) :
    ((update_valeurs now true (Except.ok (rmode, plage, val1)) s).1).historique.Pairwise
        (fun a b => a.1 ≤ b.1) ∧
    ((update_valeurs now true (Except.ok (rmode, plage, val1)) s).1).historique.getLast? =
      some (qSub now (resetStep now rmode plage s).start_time, v) ∧
    (∀ p ∈ ((update_valeurs now true (Except.ok (rmode, plage, val1)) s).1).historique,
      qSub (qSub now (resetStep now rmode plage s).start_time) (mkRat 60 1) ≤ p.1) ∧
    ((update_valeurs now true (Except.ok (rmode, plage, val1)) s).1).historique <:+
      ((resetStep now rmode plage s).historique ++
        [(qSub now (resetStep now rmode plage s).start_time, v)]) := by
  have hmain :
      ((update_valeurs now true (Except.ok (rmode, plage, val1)) s).1).historique =
        evictOld (qSub now (resetStep now rmode plage s).start_time)
          ((resetStep now rmode plage s).historique ++
            [(qSub now (resetStep now rmode plage s).start_time, v)]) := by
    simp [update_valeurs, resetStep, hv]
  rw [hmain]
  have hs1sort : (resetStep now rmode plage s).historique.Pairwise
      (fun a b => a.1 ≤ b.1) := by
    unfold resetStep applyReset
    split
    · simp
    · exact hsort
  have hs1le : ∀ p ∈ (resetStep now rmode plage s).historique,
      p.1 ≤ qSub now (resetStep now rmode plage s).start_time := by
    unfold resetStep applyReset
    split
    · simp
    · exact hle
  exact evictOld_append_invariant _ v _ hs1sort hs1le

theorem C7_window_invariant_witness :
    extraire_float "1.0" = some (mkRat 1 1) ∧
    sampleState.historique.Pairwise (fun a b => a.1 ≤ b.1) ∧
    (∀ p ∈ sampleState.historique, p.1 ≤ qSub (mkRat 5 1) sampleState.start_time) ∧
    (((update_valeurs (mkRat 5 1) true (Except.ok ("VOLT", "AUTO", "1.0"))
          sampleState).1).historique.Pairwise (fun a b => a.1 ≤ b.1) ∧
      ((update_valeurs (mkRat 5 1) true (Except.ok ("VOLT", "AUTO", "1.0"))
          sampleState).1).historique.getLast? =
        some (qSub (mkRat 5 1)
            (resetStep (mkRat 5 1) "VOLT" "AUTO" sampleState).start_time, mkRat 1 1) ∧
      (∀ p ∈ ((update_valeurs (mkRat 5 1) true (Except.ok ("VOLT", "AUTO", "1.0"))
          sampleState).1).historique,
        qSub (qSub (mkRat 5 1)
            (resetStep (mkRat 5 1) "VOLT" "AUTO" sampleState).start_time)
          (mkRat 60 1) ≤ p.1) ∧
      ((update_valeurs (mkRat 5 1) true (Except.ok ("VOLT", "AUTO", "1.0"))
          sampleState).1).historique <:+
        ((resetStep (mkRat 5 1) "VOLT" "AUTO" sampleState).historique ++
          [(qSub (mkRat 5 1)
              (resetStep (mkRat 5 1) "VOLT" "AUTO" sampleState).start_time, mkRat 1 1)])) :=
  ⟨by decide, by decide, by decide,
    C7_window_invariant (mkRat 5 1) "VOLT" "AUTO" "1.0" (mkRat 1 1) sampleState
      (by decide) (by decide) (by decide)⟩

/-- C8: in every successful poll cycle in which the queried (stripped) mode or
range differs from the stored DeviceState, the window is cleared before any
new sample of the cycle is appended, the elapsed-time origin is reset to the
current time, and DeviceState is updated to the new mode, range and unit;
when both mode and range are unchanged, the stored DeviceState and
elapsed-time origin are untouched and the window is not cleared (it evolves
only by the normal append/evict step). -/
theorem C8_mode_range_reset (now : ℚ) (graph : Bool)
    (rmode plage val1 : String) (s : AppState) :
    ((pyStripChar rmode '"' ≠ s.dernier_mode ∨ plage ≠ s.dernier_plage) →
      ((update_valeurs now graph (Except.ok (rmode, plage, val1)) s).1.dernier_mode =
          pyStripChar rmode '"' ∧
        (update_valeurs now graph (Except.ok (rmode, plage, val1)) s).1.dernier_plage =
          plage ∧
        (update_valeurs now graph (Except.ok (rmode, plage, val1)) s).1.dernier_unite =
          unitesGet (pyUpper (pyStripChar rmode '"')) ∧
        (update_valeurs now graph (Except.ok (rmode, plage, val1)) s).1.start_time = now ∧
        (update_valeurs now graph (Except.ok (rmode, plage, val1)) s).1.historique =
          (match extraire_float val1 with
            | some v => if graph then [(qSub now now, v)] else []
            | none => []))) ∧
    ((pyStripChar rmode '"' = s.dernier_mode ∧ plage = s.dernier_plage) →
      ((update_valeurs now graph (Except.ok (rmode, plage, val1)) s).1.dernier_mode =
          s.dernier_mode ∧
        (update_valeurs now graph (Except.ok (rmode, plage, val1)) s).1.dernier_plage =
          s.dernier_plage ∧
        (update_valeurs now graph (Except.ok (rmode, plage, val1)) s).1.dernier_unite =
          s.dernier_unite ∧
        (update_valeurs now graph (Except.ok (rmode, plage, val1)) s).1.start_time =
          s.start_time ∧
        (update_valeurs now graph (Except.ok (rmode, plage, val1)) s).1.historique =
          (match extraire_float val1 with
            | some v => if graph then
                evictOld (qSub now s.start_time)
                  (s.historique ++ [(qSub now s.start_time, v)])
              else s.historique
            | none => s.historique))) := by
  constructor
  · intro hc
    have hite : applyReset now (pyStripChar rmode '"') plage
        (unitesGet (pyUpper (pyStripChar rmode '"'))) s =
        ⟨[], pyStripChar rmode '"', plage,
          unitesGet (pyUpper (pyStripChar rmode '"')), now⟩ := by
      unfold applyReset
      rw [if_pos hc]
    cases hval : extraire_float val1 with
    | none => simp [update_valeurs, hite, hval]
    | some v =>
      cases graph with
      | false => simp [update_valeurs, hite, hval]
      | true =>
        have hkeep : (!decide ((((qSub now now, v)) : ℚ × ℚ).1 <
            qSub (qSub now now) (mkRat 60 1))) = true := by
          show (!decide (qSub now now < qSub (qSub now now) (mkRat 60 1))) = true
          rw [lt_qSub_sixty_self_false (qSub now now)]
          rfl
        simp only [update_valeurs, hite, hval]
        refine ⟨rfl, rfl, rfl, rfl, ?_⟩
        show evictOld (qSub now now) ([] ++ [(qSub now now, v)]) = [(qSub now now, v)]
        unfold evictOld
        rw [List.nil_append, List.dropWhile_cons_of_neg (by simp at hkeep ⊢; exact hkeep)]
  · intro hc
    have hite : applyReset now s.dernier_mode s.dernier_plage
        (unitesGet (pyUpper s.dernier_mode)) s = s := by
      unfold applyReset
      simp
    cases hval : extraire_float val1 with
    | none => simp [update_valeurs, hite, hval, hc.1, hc.2]
    | some v =>
      cases graph with
      | false => simp [update_valeurs, hite, hval, hc.1, hc.2]
      | true => simp [update_valeurs, hite, hval, hc.1, hc.2]

theorem C8_mode_range_reset_witness :
    ((pyStripChar "VOLT" '"' ≠ "RES" ∨ "AUTO" ≠ "AUTO") ∧
      ((update_valeurs (mkRat 5 1) true (Except.ok ("VOLT", "AUTO", "1.0"))
          ⟨[(mkRat 1 1, mkRat 2 1)], "RES", "AUTO", "Ω", mkRat 0 1⟩).1.dernier_mode =
        pyStripChar "VOLT" '"' ∧
      (update_valeurs (mkRat 5 1) true (Except.ok ("VOLT", "AUTO", "1.0"))
          ⟨[(mkRat 1 1, mkRat 2 1)], "RES", "AUTO", "Ω", mkRat 0 1⟩).1.dernier_plage =
        "AUTO" ∧
      (update_valeurs (mkRat 5 1) true (Except.ok ("VOLT", "AUTO", "1.0"))
          ⟨[(mkRat 1 1, mkRat 2 1)], "RES", "AUTO", "Ω", mkRat 0 1⟩).1.dernier_unite =
        unitesGet (pyUpper (pyStripChar "VOLT" '"')) ∧
      (update_valeurs (mkRat 5 1) true (Except.ok ("VOLT", "AUTO", "1.0"))
          ⟨[(mkRat 1 1, mkRat 2 1)], "RES", "AUTO", "Ω", mkRat 0 1⟩).1.start_time =
        mkRat 5 1 ∧
      (update_valeurs (mkRat 5 1) true (Except.ok ("VOLT", "AUTO", "1.0"))
          ⟨[(mkRat 1 1, mkRat 2 1)], "RES", "AUTO", "Ω", mkRat 0 1⟩).1.historique =
        (match extraire_float "1.0" with
          | some v => if true then [(qSub (mkRat 5 1) (mkRat 5 1), v)] else []
          | none => []))) ∧
    ((pyStripChar "VOLT" '"' = sampleState.dernier_mode ∧
        "AUTO" = sampleState.dernier_plage) ∧
      ((update_valeurs (mkRat 5 1) true (Except.ok ("VOLT", "AUTO", "1.0"))
          sampleState).1.dernier_mode = sampleState.dernier_mode ∧
      (update_valeurs (mkRat 5 1) true (Except.ok ("VOLT", "AUTO", "1.0"))
          sampleState).1.dernier_plage = sampleState.dernier_plage ∧
      (update_valeurs (mkRat 5 1) true (Except.ok ("VOLT", "AUTO", "1.0"))
          sampleState).1.dernier_unite = sampleState.dernier_unite ∧
      (update_valeurs (mkRat 5 1) true (Except.ok ("VOLT", "AUTO", "1.0"))
          sampleState).1.start_time = sampleState.start_time ∧
      (update_valeurs (mkRat 5 1) true (Except.ok ("VOLT", "AUTO", "1.0"))
          sampleState).1.historique =
        (match extraire_float "1.0" with
          | some v => if true then
              evictOld (qSub (mkRat 5 1) sampleState.start_time)
                (sampleState.historique ++
                  [(qSub (mkRat 5 1) sampleState.start_time, v)])
            else sampleState.historique
          | none => sampleState.historique))) :=
  ⟨⟨by decide,
      (C8_mode_range_reset (mkRat 5 1) true "VOLT" "AUTO" "1.0"
          ⟨[(mkRat 1 1, mkRat 2 1)], "RES", "AUTO", "Ω", mkRat 0 1⟩).1 (by decide)⟩,
    ⟨by decide,
      (C8_mode_range_reset (mkRat 5 1) true "VOLT" "AUTO" "1.0" sampleState).2
        (by decide)⟩⟩
